import Mathlib

set_option maxRecDepth 8000
set_option autoImplicit false

/- Verification development for the bridge-financial-spreading core.

   Shallow embedding, translated from the repository sources:
   - period_utils.py   (period label standardization)
   - models.py         (LineItem / IncomeStatement / BalanceSheet schemas)
   - model_config.py   (model registry)
   - spreader.py       (validation, reconciliation, detection and the
                        extraction pipelines)

   Python floats are modelled as rationals, Python exceptions as Except,
   and LLM calls as explicit oracle parameters.  Logging has no effect on
   data flow and is therefore not part of the embedding; where a branch of
   the source only logs, the embedding keeps the branch with its data
   behaviour (no mutation) and a comment. -/

-- ==========================================================================
-- Generic character-list helpers (embedding Python string and regex code)
-- ==========================================================================

/-- Python str.lower, character by character (labels here are ASCII). -/
def lowerChars (s : List Char) : List Char := s.map Char.toLower

/-- Python str.strip: drop whitespace from both ends. -/
def stripChars (s : List Char) : List Char :=
  ((s.dropWhile Char.isWhitespace).reverse.dropWhile Char.isWhitespace).reverse

def stripString (s : String) : String := String.mk (stripChars s.toList)

/-- Does the second list start with the first one? -/
def startsWithChars : List Char → List Char → Bool
  | [], _ => true
  | _ :: _, [] => false
  | p :: ps, c :: cs => p == c && startsWithChars ps cs

/-- Python substring test: pat in s. -/
def containsChars (pat : List Char) : List Char → Bool
  | [] => startsWithChars pat []
  | c :: cs => startsWithChars pat (c :: cs) || containsChars pat cs

def strContainsSub (s pat : String) : Bool := containsChars pat.toList s.toList

def strStartsWith (pat s : String) : Bool := startsWithChars pat.toList s.toList

/-- Regex word character on the ASCII inputs involved. -/
def isWordChar (c : Char) : Bool := c.isAlphanum || c == '_'

def digitsToNat (ds : List Char) : Nat :=
  ds.foldl (fun n c => n * 10 + (c.toNat - 48)) 0

def enDash : Char := Char.ofNat 0x2013

def emDash : Char := Char.ofNat 0x2014

-- ==========================================================================
-- period_utils.py
-- ==========================================================================

/-- MONTH_MAP items, in Python dict insertion order (the order matters:
    the detection loops return the first key that occurs as a substring). -/
def monthPairs : List (String × String) :=
  [("january", "Jan"), ("jan", "Jan"),
   ("february", "Feb"), ("feb", "Feb"),
   ("march", "Mar"), ("mar", "Mar"),
   ("april", "Apr"), ("apr", "Apr"),
   ("may", "May"),
   ("june", "Jun"), ("jun", "Jun"),
   ("july", "Jul"), ("jul", "Jul"),
   ("august", "Aug"), ("aug", "Aug"),
   ("september", "Sep"), ("sep", "Sep"), ("sept", "Sep"),
   ("october", "Oct"), ("oct", "Oct"),
   ("november", "Nov"), ("nov", "Nov"),
   ("december", "Dec"), ("dec", "Dec")]

/-- Leftmost match of the regex (19|20) followed by two digits. -/
def findYear4 : List Char → Option Nat
  | c1 :: c2 :: c3 :: c4 :: rest =>
    if ((c1 == '1' && c2 == '9') || (c1 == '2' && c2 == '0'))
        && c3.isDigit && c4.isDigit then
      some (digitsToNat [c1, c2, c3, c4])
    else findYear4 (c2 :: c3 :: c4 :: rest)
  | _ => none

/-- Character class of the two-digit-year pattern in _extract_year:
    an ASCII apostrophe or a backtick. -/
def apostropheLike (c : Char) : Bool := c == Char.ofNat 39 || c == Char.ofNat 96

/-- Leftmost match of: apostrophe-like char, two digits, word boundary.
    Returns the two-digit value. -/
def findApostYear2 : List Char → Option Nat
  | [] => none
  | c :: rest =>
    match
      (if apostropheLike c then
         match rest with
         | d1 :: d2 :: rest2 =>
           if d1.isDigit && d2.isDigit &&
              (match rest2 with
               | [] => true
               | r :: _ => !(isWordChar r)) then
             some (digitsToNat [d1, d2])
           else none
         | _ => none
       else none) with
    | some v => some v
    | none => findApostYear2 rest

/-- Match at the head: fy, any whitespace, exactly two digits, word boundary. -/
def fyYear2At (t : List Char) : Option Nat :=
  match t with
  | 'f' :: 'y' :: rest =>
    match rest.dropWhile Char.isWhitespace with
    | d1 :: d2 :: rest2 =>
      if d1.isDigit && d2.isDigit &&
         (match rest2 with
          | [] => true
          | c :: _ => !(isWordChar c)) then
        some (digitsToNat [d1, d2])
      else none
    | _ => none
  | _ => none

/-- Leftmost match of the fy two-digit-year pattern (on lowercased text). -/
def findFyYear2 : List Char → Option Nat
  | [] => none
  | c :: cs =>
    match fyYear2At (c :: cs) with
    | some v => some v
    | none => findFyYear2 cs

/-- _extract_year: four-digit year, then apostrophe two-digit year,
    then fy two-digit year; two-digit years below 50 are 2000s. -/
def extract_year (text : List Char) : Option Nat :=
  match findYear4 text with
  | some y => some y
  | none =>
    match findApostYear2 text with
    | some ys => some (if ys < 50 then 2000 + ys else 1900 + ys)
    | none =>
      match findFyYear2 (lowerChars text) with
      | some ys => some (if ys < 50 then 2000 + ys else 1900 + ys)
      | none => none

/-- _normalize_month: the first MONTH_MAP key occurring as a substring wins. -/
def normalize_month (text : List Char) : Option String :=
  let t := stripChars (lowerChars text)
  (monthPairs.find? (fun p => containsChars p.1.toList t)).map (·.2)

def isDigits24 (t : List Char) : Bool :=
  decide (2 ≤ t.length) && decide (t.length ≤ 4) && t.all Char.isDigit

/-- Pattern 1 of _detect_full_year_period: optionally fy plus at most one
    whitespace char, then two to four digits spanning the whole string. -/
def matchYearOnly (t : List Char) : Bool :=
  isDigits24 t ||
  (match t with
   | 'f' :: 'y' :: rest =>
     isDigits24 rest ||
     (match rest with
      | w :: rest2 => w.isWhitespace && isDigits24 rest2
      | [] => false)
   | _ => false)

/-- Pattern 2: fy, any whitespace, then at least two digits, at the start. -/
def matchFyStart (t : List Char) : Bool :=
  match t with
  | 'f' :: 'y' :: rest =>
    match rest.dropWhile Char.isWhitespace with
    | d1 :: d2 :: _ => d1.isDigit && d2.isDigit
    | _ => false
  | _ => false

/-- Character class between jan and dec in the jan_dec_pattern:
    hyphen, en dash, em dash, the letters t and o, and whitespace. -/
def janDecClassChar (c : Char) : Bool :=
  c == '-' || c == enDash || c == emDash || c == 't' || c == 'o' || c.isWhitespace

/-- Continuation of the jan_dec_pattern after the month word: one or more
    class characters, then december or dec. -/
def janDecAfter (t : List Char) : Bool :=
  let run := t.takeWhile janDecClassChar
  let rest := t.drop run.length
  !run.isEmpty &&
    (startsWithChars "december".toList rest || startsWithChars "dec".toList rest)

def janDecSearch : List Char → Bool
  | [] => false
  | c :: cs =>
    (if startsWithChars "january".toList (c :: cs) then janDecAfter ((c :: cs).drop 7)
     else if startsWithChars "jan".toList (c :: cs) then janDecAfter ((c :: cs).drop 3)
     else false)
    || janDecSearch cs

/-- Continuation shared by the months-ended patterns: any whitespace, month,
    optional s, any whitespace, ended or ending. -/
def monthsEndedAfter (t : List Char) : Bool :=
  let t1 := t.dropWhile Char.isWhitespace
  if startsWithChars "month".toList t1 then
    let t2 := t1.drop 5
    let t3 := match t2 with
      | 's' :: r => r
      | _ => t2
    let t4 := t3.dropWhile Char.isWhitespace
    startsWithChars "ended".toList t4 || startsWithChars "ending".toList t4
  else false

def twelveMonthsSearch : List Char → Bool
  | [] => false
  | c :: cs =>
    (if startsWithChars "12".toList (c :: cs) then monthsEndedAfter ((c :: cs).drop 2)
     else if startsWithChars "twelve".toList (c :: cs) then monthsEndedAfter ((c :: cs).drop 6)
     else false)
    || twelveMonthsSearch cs

def slashDash (c : Char) : Bool := c == '/' || c == '-'

/-- Character class of the separator in the full-date-range pattern:
    hyphen, en dash, em dash, t, o. -/
def dashToClass (c : Char) : Bool :=
  c == '-' || c == enDash || c == emDash || c == 't' || c == 'o'

def fourDigitsAfter (t : List Char) : Option (List Char) :=
  match t with
  | a :: b :: c :: d :: rest =>
    if a.isDigit && b.isDigit && c.isDigit && d.isDigit then some rest else none
  | _ => none

/-- Remainders after matching the alternation 01-or-1 at the head
    (regex alternation order: 01 first). -/
def zeroOneAlts (t : List Char) : List (List Char) :=
  (if startsWithChars "01".toList t then [t.drop 2] else [])
  ++ (if startsWithChars "1".toList t then [t.drop 1] else [])

/-- Tail of pattern 6 of _detect_full_year_period after the opening day digit:
    slash-or-dash, 01-or-1, slash-or-dash, four digits, separator, 12,
    slash-or-dash, 31, slash-or-dash, four digits. -/
def dateRangeTail (t : List Char) : Bool :=
  match t with
  | [] => false
  | c :: r1 =>
    slashDash c &&
    (zeroOneAlts r1).any (fun r2 =>
      match r2 with
      | [] => false
      | d :: r3 =>
        slashDash d &&
        (match fourDigitsAfter r3 with
         | none => false
         | some r4 =>
           let r5 := r4.dropWhile Char.isWhitespace
           let run := r5.takeWhile dashToClass
           let r6 := (r5.drop run.length).dropWhile Char.isWhitespace
           !run.isEmpty &&
           startsWithChars "12".toList r6 &&
           (match r6.drop 2 with
            | [] => false
            | e :: r7 =>
              slashDash e && startsWithChars "31".toList r7 &&
              (match r7.drop 2 with
               | [] => false
               | f :: r8 => slashDash f && (fourDigitsAfter r8).isSome))))

def dateRangeSearch : List Char → Bool
  | [] => false
  | c :: cs => (zeroOneAlts (c :: cs)).any dateRangeTail || dateRangeSearch cs

/-- _detect_full_year_period. -/
def detect_full_year_period (text : List Char) : Bool :=
  let t := stripChars (lowerChars text)
  matchYearOnly t || matchFyStart t ||
  containsChars "year ended".toList t || containsChars "year ending".toList t ||
  janDecSearch t || twelveMonthsSearch t || dateRangeSearch t

/-- Leftmost match of: q, any whitespace, a digit from 1 to 4. -/
def qDigitSearch : List Char → Option Nat
  | [] => none
  | c :: cs =>
    match
      (if c == 'q' then
         match cs.dropWhile Char.isWhitespace with
         | d :: _ =>
           if d == '1' || d == '2' || d == '3' || d == '4' then
             some (d.toNat - 48)
           else none
         | [] => none
       else none) with
    | some q => some q
    | none => qDigitSearch cs

def quarterOrdinals : List (String × Nat) :=
  [("first", 1), ("1st", 1), ("second", 2), ("2nd", 2),
   ("third", 3), ("3rd", 3), ("fourth", 4), ("4th", 4)]

def ordinalQuarter (t : List Char) : Option Nat :=
  (quarterOrdinals.find? (fun p =>
     containsChars p.1.toList t && containsChars "quarter".toList t)).map (·.2)

def threeMonthsQuarter (t : List Char) : Option Nat :=
  if containsChars "three months".toList t || containsChars "3 months".toList t then
    if containsChars "march".toList t || containsChars "mar".toList t then some 1
    else if containsChars "june".toList t || containsChars "jun".toList t then some 2
    else if containsChars "september".toList t || containsChars "sep".toList t then some 3
    else if containsChars "december".toList t || containsChars "dec".toList t then some 4
    else none
  else none

/-- _detect_quarter_period. -/
def detect_quarter_period (text : List Char) : Option (Nat × Nat) :=
  let t := stripChars (lowerChars text)
  match extract_year text with
  | none => none
  | some year =>
    match qDigitSearch t with
    | some q => some (q, year)
    | none =>
      match ordinalQuarter t with
      | some q => some (q, year)
      | none =>
        match threeMonthsQuarter t with
        | some q => some (q, year)
        | none => none

/-- Leftmost match at the head of: digits, then the months-ended continuation.
    Returns the numeric value of the digit run. -/
def numMonthsEndedAt (t : List Char) : Option Nat :=
  match t with
  | [] => none
  | c :: _ =>
    if c.isDigit then
      let run := t.takeWhile Char.isDigit
      let rest := t.drop run.length
      if monthsEndedAfter rest then some (digitsToNat run) else none
    else none

def findNumMonthsEnded : List Char → Option Nat
  | [] => none
  | c :: cs =>
    match numMonthsEndedAt (c :: cs) with
    | some n => some n
    | none => findNumMonthsEnded cs

/-- Connector alternation of the jan-through pattern: a dash character,
    or to, or through, or thru (regex alternation order). -/
def janThroughConnector (t : List Char) : Option (List Char) :=
  match t with
  | [] => none
  | c :: r =>
    if c == '-' || c == enDash || c == emDash then some r
    else if startsWithChars "to".toList (c :: r) then some ((c :: r).drop 2)
    else if startsWithChars "through".toList (c :: r) then some ((c :: r).drop 7)
    else if startsWithChars "thru".toList (c :: r) then some ((c :: r).drop 4)
    else none

/-- Continuation of the jan-through pattern after the month word: whitespace,
    connector, whitespace, then a nonempty word (the captured group). -/
def janThroughAfter (t : List Char) : Option (List Char) :=
  match janThroughConnector (t.dropWhile Char.isWhitespace) with
  | none => none
  | some r =>
    let w := (r.dropWhile Char.isWhitespace).takeWhile isWordChar
    if w.isEmpty then none else some w

def janThroughSearch : List Char → Option (List Char)
  | [] => none
  | c :: cs =>
    match
      (if startsWithChars "january".toList (c :: cs) then janThroughAfter ((c :: cs).drop 7)
       else if startsWithChars "jan".toList (c :: cs) then janThroughAfter ((c :: cs).drop 3)
       else none) with
    | some w => some w
    | none => janThroughSearch cs

/-- _detect_ytd_period. -/
def detect_ytd_period (text : List Char) : Option (String × Nat) :=
  let t := stripChars (lowerChars text)
  match extract_year text with
  | none => none
  | some year =>
    if detect_full_year_period text then none
    else
      match (if containsChars "ytd".toList t then normalize_month t else none) with
      | some m => some (m, year)
      | none =>
        match
          (match findNumMonthsEnded t with
           | some n => if n < 12 then normalize_month t else none
           | none => none) with
        | some m => some (m, year)
        | none =>
          match janThroughSearch t with
          | some w =>
            match normalize_month w with
            | some m => if m ≠ "Dec" then some (m, year) else none
            | none => none
          | none => none

/-- _detect_single_month_period. -/
def detect_single_month_period (text : List Char) : Option (String × Nat) :=
  let t := stripChars (lowerChars text)
  match extract_year text with
  | none => none
  | some year =>
    if (containsChars "through".toList t || containsChars "thru".toList t ||
        containsChars " to ".toList t || containsChars "-".toList t ||
        containsChars [enDash] t || containsChars [emDash] t ||
        containsChars "months".toList t)
       && !(containsChars "ytd".toList t) then none
    else (normalize_month t).map (fun m => (m, year))

/-- Last two characters of the decimal year, as in Python str(year)[-2:]. -/
def twoDigitYear (year : Nat) : String :=
  let s := toString year
  String.mk (s.toList.drop (s.length - 2))

/-- standardize_period_label from period_utils.py. -/
def standardize_period_label (label : String) : String :=
  if label = "" then label
  else
    let ls := stripChars label.toList
    match detect_quarter_period ls with
    | some (q, year) => "Q" ++ toString q ++ twoDigitYear year
    | none =>
      match detect_ytd_period ls with
      | some (m, year) => "YTD-" ++ m ++ "-" ++ toString year
      | none =>
        match (if detect_full_year_period ls then extract_year ls else none) with
        | some year => "FY" ++ twoDigitYear year
        | none =>
          match detect_single_month_period ls with
          | some (m, year) => m ++ "-" ++ toString year
          | none =>
            match extract_year ls with
            | some year => "FY" ++ twoDigitYear year
            | none => String.mk ls

-- ==========================================================================
-- Python float formatting (the comma two-decimal format used in messages)
-- ==========================================================================

/-- Insert a comma after every third character of a reversed digit list. -/
def commaGroupRev : List Char → List Char
  | a :: b :: c :: d :: rest => a :: b :: c :: ',' :: commaGroupRev (d :: rest)
  | ds => ds

def natCommaGrouped (n : Nat) : String :=
  String.mk (commaGroupRev (toString n).toList.reverse).reverse

def pad2 (n : Nat) : String := if n < 10 then "0" ++ toString n else toString n

/-- The comma-grouped two-decimal format used in log and error messages.
    Rounding of the hundredths digit is half-up here; the exact tie-breaking
    rule is irrelevant to every statement proved below (the strings are only
    ever tested for prefixes and substrings). -/
def formatMoney (q : ℚ) : String :=
  let cents : ℤ := round (|q| * 100)
  let n := cents.toNat
  (if q < 0 then "-" else "") ++ natCommaGrouped (n / 100) ++ "." ++ pad2 (n % 100)

-- ==========================================================================
-- models.py
-- ==========================================================================

/-- LineItem: value (nullable), confidence, provenance snippets, section hint.
    Schema defaults: value None, confidence 0.0, raw_fields_used empty,
    source_section_hint None. -/
structure LineItem where
  value : Option ℚ
  confidence : ℚ
  raw_fields_used : List String
  source_section_hint : Option String
deriving Repr, DecidableEq

/-- A LineItem as built by the schema defaults. -/
def LineItem.mkDefault : LineItem := ⟨none, 0, [], none⟩

/-- IncomeStatement schema: every field a LineItem defaulting to empty,
    plus the metadata fields with their Pydantic defaults. -/
structure IncomeStatement where
  revenue : LineItem
  cogs : LineItem
  gross_profit : LineItem
  sga : LineItem
  research_and_development : LineItem
  depreciation_amortization : LineItem
  other_operating_expenses : LineItem
  total_operating_expenses : LineItem
  operating_income : LineItem
  interest_expense : LineItem
  interest_income : LineItem
  other_income_expense : LineItem
  pretax_income : LineItem
  income_tax_expense : LineItem
  net_income : LineItem
  fiscal_period : Option String
  currency : Option String
  scale : Option String
deriving Repr, DecidableEq

/-- IncomeStatement() with every schema default. -/
def IncomeStatement.empty : IncomeStatement :=
  { revenue := LineItem.mkDefault
    cogs := LineItem.mkDefault
    gross_profit := LineItem.mkDefault
    sga := LineItem.mkDefault
    research_and_development := LineItem.mkDefault
    depreciation_amortization := LineItem.mkDefault
    other_operating_expenses := LineItem.mkDefault
    total_operating_expenses := LineItem.mkDefault
    operating_income := LineItem.mkDefault
    interest_expense := LineItem.mkDefault
    interest_income := LineItem.mkDefault
    other_income_expense := LineItem.mkDefault
    pretax_income := LineItem.mkDefault
    income_tax_expense := LineItem.mkDefault
    net_income := LineItem.mkDefault
    fiscal_period := none
    currency := some "USD"
    scale := some "units" }

/-- BalanceSheet schema from models.py. -/
structure BalanceSheet where
  cash_and_equivalents : LineItem
  short_term_investments : LineItem
  accounts_receivable : LineItem
  inventory : LineItem
  prepaid_expenses : LineItem
  other_current_assets : LineItem
  total_current_assets : LineItem
  ppe_gross : LineItem
  accumulated_depreciation : LineItem
  ppe_net : LineItem
  intangible_assets : LineItem
  goodwill : LineItem
  long_term_investments : LineItem
  other_non_current_assets : LineItem
  total_non_current_assets : LineItem
  total_assets : LineItem
  accounts_payable : LineItem
  short_term_debt : LineItem
  accrued_expenses : LineItem
  deferred_revenue_current : LineItem
  other_current_liabilities : LineItem
  total_current_liabilities : LineItem
  long_term_debt : LineItem
  deferred_tax_liabilities : LineItem
  pension_liabilities : LineItem
  other_non_current_liabilities : LineItem
  total_non_current_liabilities : LineItem
  total_liabilities : LineItem
  common_stock : LineItem
  additional_paid_in_capital : LineItem
  retained_earnings : LineItem
  treasury_stock : LineItem
  accumulated_other_comprehensive_income : LineItem
  total_shareholders_equity : LineItem
  total_liabilities_and_equity : LineItem
  as_of_date : Option String
  currency : Option String
  scale : Option String
deriving Repr, DecidableEq

/-- BalanceSheet() with every schema default. -/
def BalanceSheet.empty : BalanceSheet :=
  { cash_and_equivalents := LineItem.mkDefault
    short_term_investments := LineItem.mkDefault
    accounts_receivable := LineItem.mkDefault
    inventory := LineItem.mkDefault
    prepaid_expenses := LineItem.mkDefault
    other_current_assets := LineItem.mkDefault
    total_current_assets := LineItem.mkDefault
    ppe_gross := LineItem.mkDefault
    accumulated_depreciation := LineItem.mkDefault
    ppe_net := LineItem.mkDefault
    intangible_assets := LineItem.mkDefault
    goodwill := LineItem.mkDefault
    long_term_investments := LineItem.mkDefault
    other_non_current_assets := LineItem.mkDefault
    total_non_current_assets := LineItem.mkDefault
    total_assets := LineItem.mkDefault
    accounts_payable := LineItem.mkDefault
    short_term_debt := LineItem.mkDefault
    accrued_expenses := LineItem.mkDefault
    deferred_revenue_current := LineItem.mkDefault
    other_current_liabilities := LineItem.mkDefault
    total_current_liabilities := LineItem.mkDefault
    long_term_debt := LineItem.mkDefault
    deferred_tax_liabilities := LineItem.mkDefault
    pension_liabilities := LineItem.mkDefault
    other_non_current_liabilities := LineItem.mkDefault
    total_non_current_liabilities := LineItem.mkDefault
    total_liabilities := LineItem.mkDefault
    common_stock := LineItem.mkDefault
    additional_paid_in_capital := LineItem.mkDefault
    retained_earnings := LineItem.mkDefault
    treasury_stock := LineItem.mkDefault
    accumulated_other_comprehensive_income := LineItem.mkDefault
    total_shareholders_equity := LineItem.mkDefault
    total_liabilities_and_equity := LineItem.mkDefault
    as_of_date := none
    currency := some "USD"
    scale := some "units" }

-- ==========================================================================
-- spreader.py: validation and reconciliation
-- ==========================================================================

/-- _get_value_or_zero: value of a LineItem, defaulting None to 0. -/
def get_value_or_zero (li : LineItem) : ℚ := li.value.getD 0

/-- ValidationResult dataclass.  calculated_values keeps the Python dict
    insertion order. -/
structure ValidationResult where
  is_valid : Bool
  errors : List String
  calculated_values : List (String × ℚ)
deriving Repr, DecidableEq

/-- validate_income_statement: the three identity checks, each producing an
    error string exactly when the values are nonzero and the difference
    exceeds both the relative tolerance and the one-dollar floor. -/
def validate_income_statement (data : IncomeStatement) (tolerance : ℚ) :
    ValidationResult :=
  let revenue := get_value_or_zero data.revenue
  let cogs := get_value_or_zero data.cogs
  let gross_profit := get_value_or_zero data.gross_profit
  let operating_income := get_value_or_zero data.operating_income
  let total_opex := get_value_or_zero data.total_operating_expenses
  let pretax_income := get_value_or_zero data.pretax_income
  let tax_expense := get_value_or_zero data.income_tax_expense
  let net_income := get_value_or_zero data.net_income
  let errors1 :=
    if revenue ≠ 0 ∧ cogs ≠ 0 then
      let calc_gross_profit := revenue - cogs
      if gross_profit ≠ 0 ∧ |calc_gross_profit - gross_profit| > |gross_profit| * tolerance
          ∧ |calc_gross_profit - gross_profit| > 1 then
        ["Gross Profit mismatch: calculated " ++ formatMoney calc_gross_profit
          ++ " (Revenue " ++ formatMoney revenue ++ " - COGS " ++ formatMoney cogs
          ++ ") but extracted " ++ formatMoney gross_profit]
      else []
    else []
  let calc1 :=
    if revenue ≠ 0 ∧ cogs ≠ 0 then [("gross_profit", revenue - cogs)] else []
  let errors2 :=
    if gross_profit ≠ 0 ∧ total_opex ≠ 0 then
      let calc_operating_income := gross_profit - total_opex
      if operating_income ≠ 0
          ∧ |calc_operating_income - operating_income| > |operating_income| * tolerance
          ∧ |calc_operating_income - operating_income| > 1 then
        ["Operating Income mismatch: calculated " ++ formatMoney calc_operating_income
          ++ " but extracted " ++ formatMoney operating_income]
      else []
    else []
  let calc2 :=
    if gross_profit ≠ 0 ∧ total_opex ≠ 0 then
      [("operating_income", gross_profit - total_opex)]
    else []
  let errors3 :=
    if pretax_income ≠ 0 then
      let calc_net_income := pretax_income - tax_expense
      if net_income ≠ 0 ∧ |calc_net_income - net_income| > |net_income| * tolerance
          ∧ |calc_net_income - net_income| > 1 then
        ["Net Income mismatch: calculated " ++ formatMoney calc_net_income
          ++ " (Pre-Tax " ++ formatMoney pretax_income ++ " - Tax "
          ++ formatMoney tax_expense ++ ") but extracted " ++ formatMoney net_income]
      else []
    else []
  let calc3 :=
    if pretax_income ≠ 0 then [("net_income", pretax_income - tax_expense)] else []
  let errors := errors1 ++ errors2 ++ errors3
  { is_valid := errors.isEmpty
    errors := errors
    calculated_values := calc1 ++ calc2 ++ calc3 }

/-- validate_balance_sheet: the accounting-equation check and the
    liabilities-and-equity-total check. -/
def validate_balance_sheet (data : BalanceSheet) (tolerance : ℚ) :
    ValidationResult :=
  let total_assets := get_value_or_zero data.total_assets
  let total_liabilities := get_value_or_zero data.total_liabilities
  let total_equity := get_value_or_zero data.total_shareholders_equity
  let total_liab_equity := get_value_or_zero data.total_liabilities_and_equity
  let errors1 :=
    if total_liabilities ≠ 0 ∧ total_equity ≠ 0 then
      let calc_total := total_liabilities + total_equity
      if total_assets ≠ 0 ∧ |calc_total - total_assets| > |total_assets| * tolerance
          ∧ |calc_total - total_assets| > 1 then
        ["Balance Sheet equation error: Total Liabilities ("
          ++ formatMoney total_liabilities ++ ") + Total Equity ("
          ++ formatMoney total_equity ++ ") = " ++ formatMoney calc_total
          ++ ", but Total Assets = " ++ formatMoney total_assets]
      else []
    else []
  let calc1 :=
    if total_liabilities ≠ 0 ∧ total_equity ≠ 0 then
      [("total_liabilities_and_equity", total_liabilities + total_equity)]
    else []
  let errors2 :=
    if total_liab_equity ≠ 0 ∧ total_assets ≠ 0
        ∧ |total_liab_equity - total_assets| > |total_assets| * tolerance
        ∧ |total_liab_equity - total_assets| > 1 then
      ["Total mismatch: Total Liabilities & Equity (" ++ formatMoney total_liab_equity
        ++ ") != Total Assets (" ++ formatMoney total_assets ++ ")"]
    else []
  let errors := errors1 ++ errors2
  { is_valid := errors.isEmpty
    errors := errors
    calculated_values := calc1 }

/-- Gross-profit step of apply_computed_totals.  Returns the updated
    statement, the corrections applied, and the (possibly recomputed) local
    gross_profit value used by the operating-income step.  When the field is
    already populated with a nonzero value, the source only compares against
    the computed value and logs a possible mismatch: no data changes. -/
def gpStep (data : IncomeStatement) : IncomeStatement × List String × ℚ :=
  let revenue := get_value_or_zero data.revenue
  let cogs := get_value_or_zero data.cogs
  let gross_profit := get_value_or_zero data.gross_profit
  if revenue ≠ 0 ∧ cogs ≠ 0 then
    let computed_gp := revenue - cogs
    if gross_profit = 0 ∨ data.gross_profit.value = none then
      ({ data with gross_profit :=
          { value := some computed_gp
            confidence := 7/10
            raw_fields_used :=
              ["COMPUTED: revenue (" ++ formatMoney revenue ++ ") - cogs ("
                ++ formatMoney cogs ++ ") = " ++ formatMoney computed_gp]
            source_section_hint := data.gross_profit.source_section_hint } },
       ["Computed gross_profit = " ++ formatMoney computed_gp], computed_gp)
    else
      (data, [], gross_profit)
  else (data, [], gross_profit)

/-- Operating-income step of apply_computed_totals, using the local
    gross_profit value produced by the gross-profit step. -/
def oiStep (data : IncomeStatement) (gross_profit : ℚ) :
    IncomeStatement × List String :=
  let total_opex := get_value_or_zero data.total_operating_expenses
  let operating_income := get_value_or_zero data.operating_income
  if gross_profit ≠ 0 ∧ total_opex ≠ 0 then
    let computed_oi := gross_profit - total_opex
    if operating_income = 0 ∨ data.operating_income.value = none then
      ({ data with operating_income :=
          { value := some computed_oi
            confidence := 7/10
            raw_fields_used :=
              ["COMPUTED: gross_profit (" ++ formatMoney gross_profit
                ++ ") - total_opex (" ++ formatMoney total_opex ++ ") = "
                ++ formatMoney computed_oi]
            source_section_hint := data.operating_income.source_section_hint } },
       ["Computed operating_income = " ++ formatMoney computed_oi])
    else (data, [])
  else (data, [])

/-- apply_computed_totals from spreader.py.  The tolerance argument only
    gates warnings that are logged, never any change to the data, so it does
    not appear in the result. -/
def apply_computed_totals (data : IncomeStatement) (_tolerance : ℚ) :
    IncomeStatement × List String :=
  let s1 := gpStep data
  let s2 := oiStep s1.1 s1.2.2
  (s2.1, s1.2.1 ++ s2.2)

-- ==========================================================================
-- model_config.py
-- ==========================================================================

inductive ModelProvider
  | openai
  | anthropic
deriving Repr, DecidableEq

inductive ModelCapability
  | vision
  | reasoning
  | structured_output
deriving Repr, DecidableEq

structure ModelDefinition where
  id : String
  name : String
  provider : ModelProvider
  description : Option String
  capabilities : List ModelCapability
  is_default : Bool
  supports_reasoning_effort : Bool
  supports_extended_thinking : Bool
  recommended_use : Option String
  cost_tier : String
deriving Repr, DecidableEq

def claudeOpus45 : ModelDefinition :=
  { id := "claude-opus-4-5"
    name := "Claude Opus 4.5"
    provider := ModelProvider.anthropic
    description := some "Most capable Claude model with superior reasoning and analysis"
    capabilities := [ModelCapability.vision, ModelCapability.reasoning,
                     ModelCapability.structured_output]
    is_default := true
    supports_reasoning_effort := false
    supports_extended_thinking := true
    recommended_use := some "Complex financial documents requiring highest accuracy"
    cost_tier := "premium" }

def claudeSonnet45 : ModelDefinition :=
  { id := "claude-sonnet-4-5"
    name := "Claude Sonnet 4.5"
    provider := ModelProvider.anthropic
    description := some "Balanced performance and speed with excellent vision capabilities"
    capabilities := [ModelCapability.vision, ModelCapability.reasoning,
                     ModelCapability.structured_output]
    is_default := false
    supports_reasoning_effort := false
    supports_extended_thinking := true
    recommended_use := some "General purpose financial spreading with excellent quality"
    cost_tier := "medium" }

/-- MODEL_REGISTRY: the complete registry defined in model_config.py. -/
def MODEL_REGISTRY : List ModelDefinition := [claudeOpus45, claudeSonnet45]

def get_model_by_id (model_id : String) : Option ModelDefinition :=
  MODEL_REGISTRY.find? (fun m => m.id == model_id)

/-- get_default_model: the entry marked is_default, else the first entry
    (the registry literal is nonempty, and its first entry is claudeOpus45). -/
def get_default_model : ModelDefinition :=
  (MODEL_REGISTRY.find? (fun m => m.is_default)).getD claudeOpus45

/-- Every name defined or imported at module level in model_config.py.
    A from-import of any other name raises ImportError. -/
def model_config_module_names : List String :=
  ["List", "Dict", "Optional", "BaseModel", "Field", "Enum",
   "ModelProvider", "ModelCapability", "ModelDefinition", "MODEL_REGISTRY",
   "get_all_models", "get_model_by_id", "get_default_model",
   "get_models_by_provider", "get_models_with_capability", "get_vision_models",
   "export_for_api", "export_for_frontend", "validate_model_for_spreading",
   "AVAILABLE_MODELS_DICT", "DEFAULT_MODEL_ID"]

/-- from model_config import name: succeeds exactly when the module defines
    the name, otherwise raises ImportError. -/
def import_from_model_config (name : String) : Except String Unit :=
  if name ∈ model_config_module_names then Except.ok ()
  else Except.error ("ImportError: cannot import name " ++ name ++ " from model_config")

/-- validate_model_for_spreading from model_config.py. -/
def validate_model_for_spreading (model_id : String) : Bool × Option String :=
  match get_model_by_id model_id with
  | none => (false, some ("Unknown model: " ++ model_id))
  | some m =>
    if ModelCapability.vision ∉ m.capabilities then
      (false, some ("Model " ++ model_id ++ " does not support vision (required for PDF processing)"))
    else if ModelCapability.structured_output ∉ m.capabilities then
      (false, some ("Model " ++ model_id ++ " does not support structured output"))
    else (true, none)

-- ==========================================================================
-- spreader.py: model gateway
-- ==========================================================================

/-- get_detection_model_config.  Its body begins with
    from model_config import get_fast_model; model_config.py defines no
    get_fast_model, so every call raises ImportError before reading the
    DETECTION_MODEL environment variable.  (The would-be happy path,
    os.getenv with the fast-tier id as default, has no source to translate;
    the branch below is dead code, proved unreachable in the C1 theorem.) -/
def get_detection_model_config (envDetectionModel : Option String) :
    Except String String :=
  match import_from_model_config "get_fast_model" with
  | Except.error e => Except.error e
  | Except.ok _ => Except.ok (envDetectionModel.getD "")

/-- get_model_config_from_environment: the ANTHROPIC_MODEL environment
    variable if set, else the registry default id. -/
def get_model_config_from_environment (envAnthropicModel : Option String) : String :=
  envAnthropicModel.getD get_default_model.id

/-- _create_anthropic_llm: raises when ANTHROPIC_API_KEY is absent, else
    yields a handle (modelled by the model name). -/
def create_anthropic_llm (model_name : String) (anthropicKey : Option String) :
    Except String String :=
  match anthropicKey with
  | none =>
    Except.error ("ANTHROPIC_API_KEY not found in environment variables. "
      ++ "Please add it to your .env file: ANTHROPIC_API_KEY=sk-ant-...")
  | some _ => Except.ok model_name

/-- _create_openai_llm: raises when OPENAI_API_KEY is absent. -/
def create_openai_llm (model_name : String) (openaiKey : Option String) :
    Except String String :=
  match openaiKey with
  | none =>
    Except.error ("OPENAI_API_KEY not found in environment variables. "
      ++ "Please add it to your .env file: OPENAI_API_KEY=sk-...")
  | some _ => Except.ok model_name

/-- Provider inference used by create_llm when the id is not in the registry:
    names containing gpt, o1 or o3 are OpenAI, everything else Anthropic. -/
def infer_provider_from_name (model_name : String) : ModelProvider :=
  let lower := String.mk (lowerChars model_name.toList)
  if strContainsSub lower "gpt" || strContainsSub lower "o1"
      || strContainsSub lower "o3" then
    ModelProvider.openai
  else ModelProvider.anthropic

/-- create_llm with an explicit model name (the detection and extraction
    callers all pass one).  validate_model_for_spreading only produces a
    logged warning, so it does not influence the result. -/
def create_llm (model_name : String) (anthropicKey openaiKey : Option String) :
    Except String String :=
  let provider :=
    match get_model_by_id model_name with
    | some md => md.provider
    | none => infer_provider_from_name model_name
  match provider with
  | ModelProvider.anthropic => create_anthropic_llm model_name anthropicKey
  | ModelProvider.openai => create_openai_llm model_name openaiKey

-- ==========================================================================
-- spreader.py: statement-type detection
-- ==========================================================================

/-- StatementTypeDetection schema from models.py. -/
structure StatementTypeDetection where
  has_income_statement : Bool
  has_balance_sheet : Bool
  income_statement_pages : List Nat
  balance_sheet_pages : List Nat
  confidence : ℚ
  income_statement_confidence : ℚ
  balance_sheet_confidence : ℚ
  notes : Option String
deriving Repr, DecidableEq

/-- The all-false zero-confidence detection with a note. -/
def emptyDetection (note : String) : StatementTypeDetection :=
  { has_income_statement := false
    has_balance_sheet := false
    income_statement_pages := []
    balance_sheet_pages := []
    confidence := 0
    income_statement_confidence := 0
    balance_sheet_confidence := 0
    notes := some note }

/-- Outcome of one structured-output LLM invocation: a parsed result, or an
    exception raised inside the call. -/
inductive InvokeOutcome (α : Type)
  | ok (result : α)
  | exn (msg : String)

/-- _detect_statement_types.  The empty-input guard returns the all-false
    detection.  The LLM client is created before the try block, so a failure
    there (for example a missing API key) propagates to the caller; only the
    invocation itself is wrapped, and its exceptions become the all-false
    detection with a failure note. -/
def detect_statement_types (numImages : Nat) (model_name : String)
    (anthropicKey openaiKey : Option String)
    (outcome : InvokeOutcome StatementTypeDetection) :
    Except String StatementTypeDetection :=
  if numImages = 0 then Except.ok (emptyDetection "No images provided")
  else
    match create_llm model_name anthropicKey openaiKey with
    | Except.error e => Except.error e
    | Except.ok _ =>
      match outcome with
      | InvokeOutcome.ok r => Except.ok r
      | InvokeOutcome.exn e => Except.ok (emptyDetection ("Detection failed: " ++ e))

-- ==========================================================================
-- spreader.py: period detection
-- ==========================================================================

structure PeriodCandidate where
  label : String
  normalized_label : Option String
  end_date : Option String
  is_most_recent : Bool
  confidence : ℚ
  evidence : Option String
deriving Repr, DecidableEq

structure FiscalPeriodDetection where
  best_period : String
  best_end_date : Option String
  confidence : ℚ
  candidates : List PeriodCandidate
  notes : Option String
deriving Repr, DecidableEq

/-- _should_autodetect_period. -/
def should_autodetect_period (period : Option String) : Bool :=
  match period with
  | none => true
  | some p =>
    let normalized := String.mk (lowerChars (stripChars p.toList))
    normalized == "" || normalized == "latest" || normalized == "auto"
      || normalized == "detect" || normalized == "autodetect"

/-- _detect_fiscal_period.  The detection calls are an oracle indexed by the
    number of pages sent: the first pass uses min 2 n pages, the escalation
    pass min 3 n pages.  The early return requires a nonempty best period
    with confidence at least 0.70; the escalation result is accepted only
    when nonempty and at least as confident as the first pass; otherwise the
    first-pass label, or the untouched requested period, is returned. -/
def detect_fiscal_period (requested_period : String) (numImages : Nat)
    (invoke : Nat → FiscalPeriodDetection) :
    String × Option FiscalPeriodDetection :=
  if !(should_autodetect_period (some requested_period)) then (requested_period, none)
  else if numImages = 0 then (requested_period, none)
  else
    let initial_pages := min 2 numImages
    let first_pass := invoke initial_pages
    let best := stripString first_pass.best_period
    if best ≠ "" ∧ first_pass.confidence ≥ 7/10 then (best, some first_pass)
    else
      let second_result : Option (String × FiscalPeriodDetection) :=
        if initial_pages < numImages then
          let second_pass := invoke (min 3 numImages)
          let best2 := stripString second_pass.best_period
          if best2 ≠ "" ∧ second_pass.confidence ≥ first_pass.confidence then
            some (best2, second_pass)
          else none
        else none
      match second_result with
      | some (best2, second_pass) => (best2, some second_pass)
      | none =>
        if best ≠ "" then (best, some first_pass)
        else (requested_period, some first_pass)

-- ==========================================================================
-- spreader.py: column classification and the multi-period pipeline
-- ==========================================================================

structure ColumnClassification where
  period_columns : List String
  rollup_columns : List String
  column_order : List String
  classification_notes : Option String
deriving Repr, DecidableEq

/-- Post-processing of _classify_columns: the raw structured output of the
    classifier gets its period labels standardized; nothing else changes. -/
def classify_columns (raw : ColumnClassification) : ColumnClassification :=
  { raw with period_columns := raw.period_columns.map standardize_period_label }

/-- One extracted period of an income statement (IncomeStatementPeriod). -/
structure IncomeStatementPeriod where
  period_label : String
  end_date : Option String
  data : IncomeStatement
deriving Repr, DecidableEq

/-- MultiPeriodIncomeExtraction: the single-call structured output. -/
structure MultiPeriodIncomeExtraction where
  periods : List IncomeStatementPeriod
  currency : Option String
  scale : Option String
  notes : Option String
deriving Repr, DecidableEq

/-- MultiPeriodIncomeStatement: the final multi-period result. -/
structure MultiPeriodIncomeStatement where
  periods : List IncomeStatementPeriod
  currency : Option String
  scale : Option String
deriving Repr, DecidableEq

/-- apply_computed_totals_parallel: every period gets apply_computed_totals;
    with three or more periods the work is farmed to a thread pool, but
    results are written back by index, so the outcome equals the sequential
    map. -/
def apply_computed_totals_parallel (periods : List IncomeStatementPeriod)
    (tolerance : ℚ) : List IncomeStatementPeriod :=
  periods.map (fun p => { p with data := (apply_computed_totals p.data tolerance).1 })

/-- spread_pdf_multi_period for the income path, from the classification
    step onward.  The classifier and extractor are oracles; the second
    component counts how many extraction LLM calls were made (the single
    consolidated call happens at most once, and never when the frozen
    classification has no period columns).  Cross-period consistency checks
    and per-period math validation only log, so they do not appear in the
    result. -/
def spread_pdf_multi_period_income (rawClassification : ColumnClassification)
    (extract : ColumnClassification → Except String MultiPeriodIncomeExtraction)
    (tolerance : ℚ) :
    Except String MultiPeriodIncomeStatement × Nat :=
  let column_classification := classify_columns rawClassification
  if column_classification.period_columns.isEmpty then
    (Except.error ("No period columns detected after classification. "
      ++ "Cannot proceed with extraction. Check document format."), 0)
  else
    let frozen_columns := column_classification
    match extract frozen_columns with
    | Except.error e =>
      (Except.error ("Failed to extract periods from document: " ++ e), 1)
    | Except.ok extraction_result =>
      let extracted_periods := extraction_result.periods.map
        (fun p => { p with period_label := standardize_period_label p.period_label })
      match extracted_periods with
      | [] => (Except.error "LLM extraction returned no periods", 1)
      | first :: rest =>
        let processed := apply_computed_totals_parallel (first :: rest) tolerance
        let currency :=
          match extraction_result.currency with
          | some c => if c = "" then first.data.currency else some c
          | none => first.data.currency
        let scale :=
          match extraction_result.scale with
          | some s => if s = "" then first.data.scale else some s
          | none => first.data.scale
        (Except.ok { periods := processed, currency := currency, scale := scale }, 1)

-- ==========================================================================
-- spreader.py: the single-period reasoning loop
-- ==========================================================================

def quoteChar : Char := Char.ofNat 39

/-- Python str.join. -/
def joinWith (sep : String) : List String → String
  | [] => ""
  | [x] => x
  | x :: y :: rest => x ++ sep ++ joinWith sep (y :: rest)

def dquote : String := String.singleton (Char.ofNat 34)

/-- Python repr of a rational that stands for a float.  Integral values
    print with a trailing .0 as Python floats do; the exact digits of
    non-integral values never matter to any statement below. -/
def floatRepr (q : ℚ) : String :=
  if q.den = 1 then toString q.num ++ ".0"
  else toString q.num ++ "/" ++ toString q.den

/-- Python dict repr of calculated_values, with single-quoted keys. -/
def calculatedValuesRepr (kvs : List (String × ℚ)) : String :=
  "\x7b"
  ++ String.intercalate ", "
       (kvs.map (fun kv =>
         String.singleton quoteChar ++ kv.1 ++ String.singleton quoteChar
           ++ ": " ++ floatRepr kv.2))
  ++ "\x7d"

def jsonString (s : String) : String := dquote ++ s ++ dquote

def jsonOptString (s : Option String) : String :=
  match s with
  | none => "null"
  | some v => jsonString v

/-- JSON dump of one LineItem, in schema field order. -/
def lineItemJson (li : LineItem) : String :=
  "\x7b" ++ jsonString "value" ++ ": "
  ++ (match li.value with
      | none => "null"
      | some v => floatRepr v)
  ++ ", " ++ jsonString "confidence" ++ ": " ++ floatRepr li.confidence
  ++ ", " ++ jsonString "raw_fields_used" ++ ": ["
  ++ String.intercalate ", " (li.raw_fields_used.map jsonString)
  ++ "], " ++ jsonString "source_section_hint" ++ ": "
  ++ jsonOptString li.source_section_hint
  ++ "\x7d"

/-- model_dump_json of an IncomeStatement: every schema field in order.
    (Indentation is not reproduced; the dump is only ever embedded verbatim
    into the retry context and tested for substrings.) -/
def model_dump_json (s : IncomeStatement) : String :=
  "\x7b"
  ++ jsonString "revenue" ++ ": " ++ lineItemJson s.revenue
  ++ ", " ++ jsonString "cogs" ++ ": " ++ lineItemJson s.cogs
  ++ ", " ++ jsonString "gross_profit" ++ ": " ++ lineItemJson s.gross_profit
  ++ ", " ++ jsonString "sga" ++ ": " ++ lineItemJson s.sga
  ++ ", " ++ jsonString "research_and_development" ++ ": "
  ++ lineItemJson s.research_and_development
  ++ ", " ++ jsonString "depreciation_amortization" ++ ": "
  ++ lineItemJson s.depreciation_amortization
  ++ ", " ++ jsonString "other_operating_expenses" ++ ": "
  ++ lineItemJson s.other_operating_expenses
  ++ ", " ++ jsonString "total_operating_expenses" ++ ": "
  ++ lineItemJson s.total_operating_expenses
  ++ ", " ++ jsonString "operating_income" ++ ": " ++ lineItemJson s.operating_income
  ++ ", " ++ jsonString "interest_expense" ++ ": " ++ lineItemJson s.interest_expense
  ++ ", " ++ jsonString "interest_income" ++ ": " ++ lineItemJson s.interest_income
  ++ ", " ++ jsonString "other_income_expense" ++ ": "
  ++ lineItemJson s.other_income_expense
  ++ ", " ++ jsonString "pretax_income" ++ ": " ++ lineItemJson s.pretax_income
  ++ ", " ++ jsonString "income_tax_expense" ++ ": "
  ++ lineItemJson s.income_tax_expense
  ++ ", " ++ jsonString "net_income" ++ ": " ++ lineItemJson s.net_income
  ++ ", " ++ jsonString "fiscal_period" ++ ": " ++ jsonOptString s.fiscal_period
  ++ ", " ++ jsonString "currency" ++ ": " ++ jsonOptString s.currency
  ++ ", " ++ jsonString "scale" ++ ": " ++ jsonOptString s.scale
  ++ "\x7d"

/-- The retry context built in spread_pdf when validation fails with retries
    remaining: the error list, the calculated values, and the full JSON of
    the previous extraction. -/
def build_retry_context (validation : ValidationResult) (result : IncomeStatement) :
    String :=
  "Validation errors:\n"
  ++ joinWith "\n" (validation.errors.map (fun e => "  - " ++ e))
  ++ "\n\nCalculated values: " ++ calculatedValuesRepr validation.calculated_values
  ++ "\n\nPrevious extraction (JSON):\n" ++ model_dump_json result

/-- The reasoning loop of spread_pdf (STEP E), for the income path.  The
    extraction call is an oracle taking the attempt number and the retry
    context.  The loop returns the final raw result together with the list
    of contexts passed to the successive attempts (none for the first).
    Validation failures never raise: after the last attempt the result is
    returned regardless. -/
def reasoning_loop (invoke : Nat → Option String → IncomeStatement)
    (validation_tolerance : ℚ) (max_retries : Nat) :
    Nat → Option String → IncomeStatement × List (Option String)
  | attempt, retry_context =>
    let result := invoke attempt retry_context
    let validation := validate_income_statement result validation_tolerance
    if validation.is_valid then (result, [retry_context])
    else if h : attempt < max_retries then
      let next := reasoning_loop invoke validation_tolerance max_retries
        (attempt + 1) (some (build_retry_context validation result))
      (next.1, retry_context :: next.2)
    else (result, [retry_context])
termination_by attempt _ => max_retries - attempt
decreasing_by exact Nat.sub_lt_sub_left h (Nat.lt_succ_self attempt)

/-- STEP F of spread_pdf for an income statement: computed totals with the
    same validation tolerance, then metadata standardization (an empty or
    missing fiscal_period becomes the standardized requested period, a
    present one is standardized in place). -/
def post_process_income (period : String) (validation_tolerance : ℚ)
    (result : IncomeStatement) : IncomeStatement :=
  let r1 := (apply_computed_totals result validation_tolerance).1
  let standardized_period := standardize_period_label period
  match r1.fiscal_period with
  | none => { r1 with fiscal_period := some standardized_period }
  | some fp =>
    if fp = "" then { r1 with fiscal_period := some standardized_period }
    else { r1 with fiscal_period := some (standardize_period_label fp) }

/-- spread_pdf, income path, from the reasoning loop onward: runs the loop
    starting with no retry context, then post-processes the final result.
    Also returns the contexts handed to each attempt. -/
def spread_pdf_income (period : String) (max_retries : Nat)
    (validation_tolerance : ℚ)
    (invoke : Nat → Option String → IncomeStatement) :
    IncomeStatement × List (Option String) :=
  let lr := reasoning_loop invoke validation_tolerance max_retries 0 none
  (post_process_income period validation_tolerance lr.1, lr.2)

-- ==========================================================================
-- Helper lemmas
-- ==========================================================================

theorem strToList_append (a b : String) : (a ++ b).toList = a.toList ++ b.toList := rfl

theorem startsWithChars_append_left (pat lit rest : List Char)
    (h : startsWithChars pat lit = true) :
    startsWithChars pat (lit ++ rest) = true := by
  induction pat generalizing lit with
  | nil => rfl
  | cons p ps ih =>
    cases lit with
    | nil => simp [startsWithChars] at h
    | cons c cs =>
      simp only [startsWithChars, Bool.and_eq_true] at h ⊢
      exact ⟨h.1, ih cs h.2⟩

theorem startsWithChars_append_ne (pat lit rest : List Char)
    (hlen : pat.length ≤ lit.length)
    (h : startsWithChars pat lit = false) :
    startsWithChars pat (lit ++ rest) = false := by
  induction pat generalizing lit with
  | nil => simp [startsWithChars] at h
  | cons p ps ih =>
    cases lit with
    | nil => simp at hlen
    | cons c cs =>
      simp only [startsWithChars, Bool.and_eq_false_iff] at h ⊢
      rcases h with h | h
      · exact Or.inl h
      · exact Or.inr (ih cs (Nat.le_of_succ_le_succ hlen) h)

/-- A prefix test on a string built from a known literal head succeeds when
    the pattern starts the literal. -/
theorem strStartsWith_concat_true (pat lit : String) (rest : String)
    (h : startsWithChars pat.toList lit.toList = true) :
    strStartsWith pat (lit ++ rest) = true := by
  unfold strStartsWith
  rw [strToList_append]
  exact startsWithChars_append_left _ _ _ h

/-- A prefix test on a string built from a known literal head fails when the
    pattern mismatches within the literal. -/
theorem strStartsWith_concat_ne (pat lit : String) (rest : String)
    (hlen : pat.toList.length ≤ lit.toList.length)
    (h : startsWithChars pat.toList lit.toList = false) :
    strStartsWith pat (lit ++ rest) = false := by
  unfold strStartsWith
  rw [strToList_append]
  exact startsWithChars_append_ne _ _ _ hlen h

-- ==========================================================================
-- C1
-- ==========================================================================

/-- C1: the claim asserts get_detection_model_config returns, without
    raising, the DETECTION_MODEL override or the fast-tier registry id.  The
    code cannot do this: its first statement imports get_fast_model from
    model_config, and model_config.py defines no such name (its registry
    holds only claude-opus-4-5 and claude-sonnet-4-5, with no fast tier), so
    every call raises ImportError — contradicting the docstrings of
    spreader.py, which promise a Claude 3.5 Haiku fast tier. -/
theorem C1_detection_model_config_raises :
    "get_fast_model" ∉ model_config_module_names
    ∧ ∀ env : Option String,
        get_detection_model_config env
          = Except.error "ImportError: cannot import name get_fast_model from model_config" := by
  refine ⟨by decide, fun env => rfl⟩

/-- C1 witness: the call with no DETECTION_MODEL override raises. -/
theorem C1_detection_model_config_raises_witness :
    get_detection_model_config none
      = Except.error "ImportError: cannot import name get_fast_model from model_config" :=
  C1_detection_model_config_raises.2 none

-- ==========================================================================
-- C5
-- ==========================================================================

/-- C5 counterexample: standardize_period_label is not idempotent.  The
    single-month label January 2025 standardizes to Jan-2025, but
    standardizing Jan-2025 again yields FY25 (the hyphen makes the
    single-month detector bail out, and the year fallback labels it a
    fiscal year). -/
theorem C5_counterexample :
    standardize_period_label "January 2025" = "Jan-2025"
    ∧ standardize_period_label "Jan-2025" = "FY25"
    ∧ (standardize_period_label (standardize_period_label "January 2025")
        == standardize_period_label "January 2025") = false := by
  refine ⟨by decide, by decide, by decide⟩

/-- C5 (amended): both verbose full-year labels standardize to FY24, and the
    standardized label FY24 is a fixed point; idempotence holds there but
    not for every label (see the counterexample). -/
theorem C5_standardize_full_year_labels :
    standardize_period_label "January through December 2024" = "FY24"
    ∧ standardize_period_label "Jan - Dec 2024" = "FY24"
    ∧ standardize_period_label "FY24" = "FY24" := by
  refine ⟨by decide, by decide, by decide⟩

-- ==========================================================================
-- C7
-- ==========================================================================

/-- C7 counterexample: the claim says the statement-type detector never
    propagates an exception for any input or model failure.  But the LLM
    client is created before the try block: with one page and no
    ANTHROPIC_API_KEY in the environment, _create_anthropic_llm raises and
    the ValueError escapes _detect_statement_types. -/
theorem C7_counterexample :
    detect_statement_types 1 "claude-3-5-haiku-latest" none none
        (InvokeOutcome.exn "structured output parse failure")
      = Except.error ("ANTHROPIC_API_KEY not found in environment variables. "
          ++ "Please add it to your .env file: ANTHROPIC_API_KEY=sk-ant-...") := by
  rfl

/-- C7 (amended): an empty page list yields the all-false zero-confidence
    detection; when client creation succeeds, any exception from the
    structured-output invocation is swallowed into the all-false detection
    with a failure note; but an error from client creation itself (raised
    before the try block) propagates unchanged. -/
theorem C7_detector_degrades_after_client_creation (numImages : Nat)
    (model_name : String) (anthropicKey openaiKey : Option String)
    (outcome : InvokeOutcome StatementTypeDetection) :
    (numImages = 0 →
      detect_statement_types numImages model_name anthropicKey openaiKey outcome
        = Except.ok (emptyDetection "No images provided"))
    ∧ (numImages ≠ 0 →
        ∀ llm, create_llm model_name anthropicKey openaiKey = Except.ok llm →
        ∀ e, outcome = InvokeOutcome.exn e →
        detect_statement_types numImages model_name anthropicKey openaiKey outcome
          = Except.ok (emptyDetection ("Detection failed: " ++ e)))
    ∧ (numImages ≠ 0 →
        ∀ e, create_llm model_name anthropicKey openaiKey = Except.error e →
        detect_statement_types numImages model_name anthropicKey openaiKey outcome
          = Except.error e) := by
  refine ⟨fun h => ?_, fun h llm hllm e he => ?_, fun h e he => ?_⟩
  · simp [detect_statement_types, h]
  · subst he; simp [detect_statement_types, h, hllm]
  · simp [detect_statement_types, h, he]

/-- C7 witness: with two pages, a present API key and a parse failure, the
    detector returns the all-false detection with the failure note. -/
theorem C7_detector_degrades_witness :
    detect_statement_types 2 "claude-3-5-haiku-latest" (some "key") none
        (InvokeOutcome.exn "parse error")
      = Except.ok (emptyDetection ("Detection failed: " ++ "parse error")) :=
  (C7_detector_degrades_after_client_creation 2 "claude-3-5-haiku-latest"
      (some "key") none (InvokeOutcome.exn "parse error")).2.1
    (by decide) "claude-3-5-haiku-latest" rfl "parse error" rfl

-- ==========================================================================
-- C3
-- ==========================================================================

/-- The operating-income step never touches the gross_profit field. -/
theorem oiStep_gross_profit (d : IncomeStatement) (gp : ℚ) :
    (oiStep d gp).1.gross_profit = d.gross_profit := by
  unfold oiStep
  dsimp only
  split_ifs <;> rfl

/-- Every correction emitted by the operating-income step is the computed
    operating-income message. -/
theorem oiStep_corrections (d : IncomeStatement) (gp : ℚ) :
    (oiStep d gp).2 = []
    ∨ ∃ r, (oiStep d gp).2 = ["Computed operating_income = " ++ r] := by
  unfold oiStep
  dsimp only
  split_ifs
  · exact Or.inr ⟨_, rfl⟩
  · exact Or.inl rfl
  · exact Or.inl rfl

/-- With gross_profit populated and nonzero, the gross-profit step changes
    nothing and emits no correction (a computed-value disagreement is only
    logged). -/
theorem gpStep_populated (s : IncomeStatement) (v : ℚ)
    (hv : s.gross_profit.value = some v) (hnz : v ≠ 0) :
    gpStep s = (s, [], v) := by
  have hgv : get_value_or_zero s.gross_profit = v := by
    simp [get_value_or_zero, hv]
  unfold gpStep
  dsimp only
  rw [hgv]
  split_ifs with h1 h2
  · rcases h2 with h2 | h2
    · exact absurd h2 hnz
    · rw [hv] at h2; cases h2
  · rfl
  · rfl

/-- A statement whose gross_profit is populated with the value 0.0 while
    revenue and cogs are present and inconsistent with it. -/
def exC3 : IncomeStatement :=
  { IncomeStatement.empty with
    revenue := { value := some 1000, confidence := 9/10,
                 raw_fields_used := ["Total Revenue"], source_section_hint := none }
    cogs := { value := some 400, confidence := 9/10,
              raw_fields_used := ["Cost of Goods Sold"], source_section_hint := none }
    gross_profit := { value := some 0, confidence := 8/10,
                      raw_fields_used := ["Gross Profit"], source_section_hint := none } }

/-- C3 counterexample: the claim protects any populated (non-null)
    gross_profit, but a gross_profit populated with 0.0 is treated as
    missing and overwritten by the computed value. -/
theorem C3_counterexample :
    exC3.gross_profit.value = some 0
    ∧ (apply_computed_totals exC3 (1/100)).1.gross_profit.value = some 600 := by
  refine ⟨rfl, ?_⟩
  norm_num [apply_computed_totals, gpStep, oiStep, exC3, get_value_or_zero,
    IncomeStatement.empty, LineItem.mkDefault]

/-- C3 (amended): for every IncomeStatement whose gross_profit is populated
    with a nonzero value, apply_computed_totals leaves the entire
    gross_profit LineItem unchanged — even when it disagrees with
    revenue minus cogs, the mismatch is only logged — and no correction
    entry for gross_profit is emitted. -/
theorem C3_populated_gross_profit_untouched (s : IncomeStatement) (tol : ℚ)
    (v : ℚ) (hv : s.gross_profit.value = some v) (hnz : v ≠ 0) :
    (apply_computed_totals s tol).1.gross_profit = s.gross_profit
    ∧ ∀ c ∈ (apply_computed_totals s tol).2,
        strStartsWith "Computed gross_profit" c = false := by
  unfold apply_computed_totals
  rw [gpStep_populated s v hv hnz]
  refine ⟨oiStep_gross_profit s v, fun c hc => ?_⟩
  simp only [List.nil_append] at hc
  rcases oiStep_corrections s v with h | ⟨r, h⟩
  · rw [h] at hc
    exact absurd hc (List.not_mem_nil c)
  · rw [h, List.mem_singleton] at hc
    subst hc
    exact strStartsWith_concat_ne _ _ _ (by decide) (by decide)

-- ==========================================================================
-- C4
-- ==========================================================================

theorem containsChars_of_startsWith (pat s : List Char)
    (h : startsWithChars pat s = true) : containsChars pat s = true := by
  cases s with
  | nil =>
    cases pat with
    | nil => rfl
    | cons p ps => simp [startsWithChars] at h
  | cons c cs => simp [containsChars, h]

/-- A balance sheet with nonzero liabilities and equity but a null
    total_assets: the identity is badly violated yet no check fires. -/
def exC4 : BalanceSheet :=
  { BalanceSheet.empty with
    total_liabilities := { value := some 100, confidence := 9/10,
                           raw_fields_used := ["Total Liabilities"],
                           source_section_hint := none }
    total_shareholders_equity := { value := some 100, confidence := 9/10,
                                   raw_fields_used := ["Total Equity"],
                                   source_section_hint := none } }

/-- C4 counterexample: the claim demands an error whenever the difference
    formula exceeds the threshold, assuming only liabilities and equity are
    present.  With total_assets null (treated as 0) the difference 200
    exceeds the threshold 1, yet validate_balance_sheet reports no error:
    the equation check is skipped entirely when total_assets is 0. -/
theorem C4_counterexample :
    (validate_balance_sheet exC4 (1/20)).errors = []
    ∧ (validate_balance_sheet exC4 (1/20)).is_valid = true
    ∧ |(0 : ℚ) - (100 + 100)| > max ((1/20) * 0) 1 := by
  refine ⟨?_, ?_, by norm_num⟩ <;>
    norm_num [validate_balance_sheet, get_value_or_zero, exC4,
      BalanceSheet.empty, LineItem.mkDefault]

/-- The second balance-sheet check can never carry the equation-error
    prefix. -/
theorem balance_e2_not_flagged (r : List Char) :
    startsWithChars "Balance Sheet equation error".toList
      ("Total mismatch: Total Liabilities & Equity (".toList ++ r) = false :=
  startsWithChars_append_ne _ _ _ (by decide) (by decide)

/-- The first balance-sheet check always carries the equation-error
    prefix. -/
theorem balance_e1_flagged (r : List Char) :
    startsWithChars "Balance Sheet equation error".toList
      ("Balance Sheet equation error: Total Liabilities (".toList ++ r) = true :=
  startsWithChars_append_left _ _ _ (by decide)

/-- C4 (amended): when total_assets, total_liabilities and
    total_shareholders_equity are all populated and nonzero, the default
    validation (tolerance five percent) flags the balance-sheet equation
    check exactly when the absolute difference exceeds the larger of the
    relative tolerance (against the absolute value of assets) and the
    one-dollar floor. -/
theorem C4_balance_identity_flag (bs : BalanceSheet) (l e a : ℚ)
    (hl : bs.total_liabilities.value = some l) (hl0 : l ≠ 0)
    (he : bs.total_shareholders_equity.value = some e) (he0 : e ≠ 0)
    (ha : bs.total_assets.value = some a) (ha0 : a ≠ 0) :
    (∃ err ∈ (validate_balance_sheet bs (1/20)).errors,
        strStartsWith "Balance Sheet equation error" err = true)
    ↔ |a - (l + e)| > max ((1/20) * |a|) 1 := by
  have hgl : get_value_or_zero bs.total_liabilities = l := by
    simp [get_value_or_zero, hl]
  have hge : get_value_or_zero bs.total_shareholders_equity = e := by
    simp [get_value_or_zero, he]
  have hga : get_value_or_zero bs.total_assets = a := by
    simp [get_value_or_zero, ha]
  have habs : |l + e - a| = |a - (l + e)| := abs_sub_comm _ _
  have h1iff : (a ≠ 0 ∧ |l + e - a| > |a| * (1/20) ∧ |l + e - a| > 1)
      ↔ |a - (l + e)| > max ((1/20) * |a|) 1 := by
    constructor
    · rintro ⟨_, h2, h3⟩
      rw [habs] at h2 h3
      exact max_lt (by rwa [mul_comm] at h2) h3
    · intro h
      rcases max_lt_iff.mp h with ⟨h2, h3⟩
      rw [← habs] at h2 h3
      exact ⟨ha0, by rwa [mul_comm] at h2, h3⟩
  unfold validate_balance_sheet
  dsimp only
  rw [hgl, hge, hga, if_pos (And.intro hl0 he0)]
  by_cases hc : |a - (l + e)| > max ((1/20) * |a|) 1
  · rw [if_pos (h1iff.mpr hc)]
    simp only [hc, iff_true]
    refine ⟨_, List.mem_append_left _ (List.mem_singleton_self _), ?_⟩
    unfold strStartsWith
    simp only [strToList_append, List.append_assoc]
    exact balance_e1_flagged _
  · rw [if_neg (fun hh => hc (h1iff.mp hh))]
    simp only [List.nil_append]
    constructor
    · rintro ⟨err, hmem, hpre⟩
      split_ifs at hmem with h2
      · rw [List.mem_singleton] at hmem
        subst hmem
        unfold strStartsWith at hpre
        simp only [strToList_append, List.append_assoc] at hpre
        rw [balance_e2_not_flagged] at hpre
        exact absurd hpre (by decide)
      · exact absurd hmem (List.not_mem_nil err)
    · intro h
      exact absurd h hc

/-- C4 witness: liabilities 100, equity 100, assets 300 — the difference 100
    exceeds the threshold 15, so the equation error is flagged. -/
def exC4w : BalanceSheet :=
  { BalanceSheet.empty with
    total_assets := { value := some 300, confidence := 9/10,
                      raw_fields_used := ["Total Assets"],
                      source_section_hint := none }
    total_liabilities := { value := some 100, confidence := 9/10,
                           raw_fields_used := ["Total Liabilities"],
                           source_section_hint := none }
    total_shareholders_equity := { value := some 100, confidence := 9/10,
                                   raw_fields_used := ["Total Equity"],
                                   source_section_hint := none } }

theorem C4_balance_identity_flag_witness :
    (∃ err ∈ (validate_balance_sheet exC4w (1/20)).errors,
        strStartsWith "Balance Sheet equation error" err = true)
    ↔ |(300 : ℚ) - (100 + 100)| > max ((1/20) * |(300 : ℚ)|) 1 :=
  C4_balance_identity_flag exC4w 100 100 300 rfl (by norm_num) rfl (by norm_num)
    rfl (by norm_num)

-- ==========================================================================
-- C2
-- ==========================================================================

/-- A string headed by a literal that starts with COMPUTED contains the
    COMPUTED marker. -/
theorem computed_marker_contained (lit : String) (r : List Char)
    (h : startsWithChars "COMPUTED".toList lit.toList = true) :
    containsChars "COMPUTED".toList (lit.toList ++ r) = true :=
  containsChars_of_startsWith _ _ (startsWithChars_append_left _ _ _ h)

/-- With revenue and cogs populated and nonzero and gross_profit null or
    zero, the gross-profit step fills the field: computed value, confidence
    0.7, COMPUTED provenance. -/
theorem gpStep_fill (s : IncomeStatement) (rv cv : ℚ)
    (hr : s.revenue.value = some rv) (hc : s.cogs.value = some cv)
    (hrnz : rv ≠ 0) (hcnz : cv ≠ 0)
    (hgp : s.gross_profit.value = none ∨ s.gross_profit.value = some 0) :
    gpStep s =
      ({ s with gross_profit :=
          { value := some (rv - cv)
            confidence := 7/10
            raw_fields_used :=
              ["COMPUTED: revenue (" ++ formatMoney rv ++ ") - cogs ("
                ++ formatMoney cv ++ ") = " ++ formatMoney (rv - cv)]
            source_section_hint := s.gross_profit.source_section_hint } },
       ["Computed gross_profit = " ++ formatMoney (rv - cv)], rv - cv) := by
  have hgv0 : get_value_or_zero s.gross_profit = 0 := by
    rcases hgp with h | h <;> simp [get_value_or_zero, h]
  have hgr : get_value_or_zero s.revenue = rv := by simp [get_value_or_zero, hr]
  have hgc : get_value_or_zero s.cogs = cv := by simp [get_value_or_zero, hc]
  unfold gpStep
  dsimp only
  rw [hgr, hgc, hgv0, if_pos (And.intro hrnz hcnz), if_pos (Or.inl rfl)]

/-- With the local gross profit and total operating expenses nonzero and
    operating_income null or zero, the operating-income step fills the
    field the same way. -/
theorem oiStep_fill (d : IncomeStatement) (gp tv : ℚ)
    (ht : d.total_operating_expenses.value = some tv)
    (hgpnz : gp ≠ 0) (htnz : tv ≠ 0)
    (hoi : d.operating_income.value = none ∨ d.operating_income.value = some 0) :
    oiStep d gp =
      ({ d with operating_income :=
          { value := some (gp - tv)
            confidence := 7/10
            raw_fields_used :=
              ["COMPUTED: gross_profit (" ++ formatMoney gp ++ ") - total_opex ("
                ++ formatMoney tv ++ ") = " ++ formatMoney (gp - tv)]
            source_section_hint := d.operating_income.source_section_hint } },
       ["Computed operating_income = " ++ formatMoney (gp - tv)]) := by
  have h0 : get_value_or_zero d.operating_income = 0 := by
    rcases hoi with h | h <;> simp [get_value_or_zero, h]
  have h1 : get_value_or_zero d.total_operating_expenses = tv := by
    simp [get_value_or_zero, ht]
  unfold oiStep
  dsimp only
  rw [h1, h0, if_pos (And.intro hgpnz htnz), if_pos (Or.inl rfl)]

/-- C2: for every IncomeStatement whose revenue and cogs are populated and
    nonzero while gross_profit is null or zero, apply_computed_totals sets
    gross_profit to revenue minus cogs with confidence 0.7 (strictly below
    0.9) and a COMPUTED provenance entry; and under the analogous conditions
    it sets operating_income to gross_profit minus total_operating_expenses
    the same way. -/
theorem C2_computed_total_fill (s : IncomeStatement) (rv cv tol : ℚ)
    (hr : s.revenue.value = some rv) (hc : s.cogs.value = some cv)
    (hrnz : rv ≠ 0) (hcnz : cv ≠ 0)
    (hgp : s.gross_profit.value = none ∨ s.gross_profit.value = some 0) :
    (apply_computed_totals s tol).1.gross_profit.value = some (rv - cv)
    ∧ (apply_computed_totals s tol).1.gross_profit.confidence = 7/10
    ∧ (7/10 : ℚ) < 9/10
    ∧ (∃ p ∈ (apply_computed_totals s tol).1.gross_profit.raw_fields_used,
        strContainsSub p "COMPUTED" = true)
    ∧ (∀ tv, s.total_operating_expenses.value = some tv → tv ≠ 0 →
        rv - cv ≠ 0 →
        (s.operating_income.value = none ∨ s.operating_income.value = some 0) →
        (apply_computed_totals s tol).1.operating_income.value = some (rv - cv - tv)
        ∧ (apply_computed_totals s tol).1.operating_income.confidence = 7/10
        ∧ ∃ p ∈ (apply_computed_totals s tol).1.operating_income.raw_fields_used,
            strContainsSub p "COMPUTED" = true) := by
  have hfill := gpStep_fill s rv cv hr hc hrnz hcnz hgp
  unfold apply_computed_totals
  rw [hfill]
  dsimp only
  refine ⟨?_, ?_, by norm_num, ?_, ?_⟩
  · rw [oiStep_gross_profit]
  · rw [oiStep_gross_profit]
  · rw [oiStep_gross_profit]
    refine ⟨_, List.mem_singleton_self _, ?_⟩
    unfold strContainsSub
    simp only [strToList_append, List.append_assoc]
    exact computed_marker_contained "COMPUTED: revenue (" _ (by decide)
  · intro tv htv htnz hgpnz hoi
    rw [oiStep_fill _ (rv - cv) tv (by exact htv) hgpnz htnz (by exact hoi)]
    refine ⟨rfl, rfl, ?_⟩
    refine ⟨_, List.mem_singleton_self _, ?_⟩
    unfold strContainsSub
    simp only [strToList_append, List.append_assoc]
    exact computed_marker_contained "COMPUTED: gross_profit (" _ (by decide)

/-- C2 witness input: the testable-property example from the specification. -/
def exC2 : IncomeStatement :=
  { IncomeStatement.empty with
    revenue := { value := some 1000000, confidence := 95/100,
                 raw_fields_used := ["Total Revenue: $1,000,000"],
                 source_section_hint := none }
    cogs := { value := some 400000, confidence := 95/100,
              raw_fields_used := ["Cost of Goods Sold: $400,000"],
              source_section_hint := none } }

theorem C2_computed_total_fill_witness :
    (apply_computed_totals exC2 (1/100)).1.gross_profit.value = some 600000
    ∧ (apply_computed_totals exC2 (1/100)).1.gross_profit.confidence < 9/10
    ∧ ∃ p ∈ (apply_computed_totals exC2 (1/100)).1.gross_profit.raw_fields_used,
        strContainsSub p "COMPUTED" = true := by
  have h := C2_computed_total_fill exC2 1000000 400000 (1/100) rfl rfl
    (by norm_num) (by norm_num) (Or.inl rfl)
  refine ⟨?_, ?_, h.2.2.2.1⟩
  · rw [h.1]; norm_num
  · rw [h.2.1]; norm_num

-- ==========================================================================
-- C10
-- ==========================================================================

/-- The LineItem invariant: a null value forces zero confidence. -/
def LineItemNullZero (li : LineItem) : Prop := li.value = none → li.confidence = 0

/-- The invariant on every LineItem field of an IncomeStatement. -/
def IncomeStatementNullZero (s : IncomeStatement) : Prop :=
  LineItemNullZero s.revenue ∧ LineItemNullZero s.cogs
  ∧ LineItemNullZero s.gross_profit ∧ LineItemNullZero s.sga
  ∧ LineItemNullZero s.research_and_development
  ∧ LineItemNullZero s.depreciation_amortization
  ∧ LineItemNullZero s.other_operating_expenses
  ∧ LineItemNullZero s.total_operating_expenses
  ∧ LineItemNullZero s.operating_income
  ∧ LineItemNullZero s.interest_expense ∧ LineItemNullZero s.interest_income
  ∧ LineItemNullZero s.other_income_expense ∧ LineItemNullZero s.pretax_income
  ∧ LineItemNullZero s.income_tax_expense ∧ LineItemNullZero s.net_income

/-- The gross-profit step either changes nothing or replaces gross_profit
    with a LineItem holding a non-null value. -/
theorem gpStep_cases (s : IncomeStatement) :
    (gpStep s).1 = s
    ∨ ∃ li : LineItem, li.value ≠ none ∧ (gpStep s).1 = { s with gross_profit := li } := by
  unfold gpStep
  dsimp only
  split_ifs
  · exact Or.inr ⟨_, by simp, rfl⟩
  · exact Or.inl rfl
  · exact Or.inl rfl

/-- The operating-income step either changes nothing or replaces
    operating_income with a LineItem holding a non-null value. -/
theorem oiStep_cases (d : IncomeStatement) (gp : ℚ) :
    (oiStep d gp).1 = d
    ∨ ∃ li : LineItem, li.value ≠ none ∧ (oiStep d gp).1 = { d with operating_income := li } := by
  unfold oiStep
  dsimp only
  split_ifs
  · exact Or.inr ⟨_, by simp, rfl⟩
  · exact Or.inl rfl
  · exact Or.inl rfl

theorem inv_update_gp (s : IncomeStatement) (li : LineItem)
    (h : IncomeStatementNullZero s) (hli : LineItemNullZero li) :
    IncomeStatementNullZero { s with gross_profit := li } := by
  unfold IncomeStatementNullZero at h ⊢
  dsimp only
  exact ⟨h.1, h.2.1, hli, h.2.2.2⟩

theorem inv_update_oi (s : IncomeStatement) (li : LineItem)
    (h : IncomeStatementNullZero s) (hli : LineItemNullZero li) :
    IncomeStatementNullZero { s with operating_income := li } := by
  unfold IncomeStatementNullZero at h ⊢
  dsimp only
  exact ⟨h.1, h.2.1, h.2.2.1, h.2.2.2.1, h.2.2.2.2.1, h.2.2.2.2.2.1,
    h.2.2.2.2.2.2.1, h.2.2.2.2.2.2.2.1, hli, h.2.2.2.2.2.2.2.2.2⟩

/-- C10: a freshly constructed LineItem has a null value and zero
    confidence, and apply_computed_totals preserves the invariant that a
    null value implies zero confidence: whenever it writes the 0.7
    confidence it writes a non-null value in the same assignment. -/
theorem C10_null_confidence_invariant (s : IncomeStatement) (tol : ℚ)
    (h : IncomeStatementNullZero s) :
    (LineItem.mkDefault.value = none ∧ LineItem.mkDefault.confidence = 0)
    ∧ IncomeStatementNullZero (apply_computed_totals s tol).1 := by
  refine ⟨⟨rfl, rfl⟩, ?_⟩
  have hd : IncomeStatementNullZero (gpStep s).1 := by
    rcases gpStep_cases s with h1 | ⟨li, hli, h1⟩
    · rw [h1]; exact h
    · rw [h1]; exact inv_update_gp s li h (fun hnone => absurd hnone hli)
  unfold apply_computed_totals
  dsimp only
  rcases oiStep_cases (gpStep s).1 (gpStep s).2.2 with h2 | ⟨li, hli, h2⟩
  · rw [h2]; exact hd
  · rw [h2]; exact inv_update_oi _ li hd (fun hnone => absurd hnone hli)

theorem C10_null_confidence_invariant_witness :
    (LineItem.mkDefault.value = none ∧ LineItem.mkDefault.confidence = 0)
    ∧ IncomeStatementNullZero (apply_computed_totals IncomeStatement.empty (1/100)).1 :=
  C10_null_confidence_invariant IncomeStatement.empty (1/100)
    (by simp [IncomeStatementNullZero, LineItemNullZero, IncomeStatement.empty,
      LineItem.mkDefault])

-- ==========================================================================
-- C6
-- ==========================================================================

/-- C6: in auto-detect mode, when the first pass (on min 2 n pages) is below
    the 0.70 confidence threshold and more pages exist, the escalation pass
    runs on exactly one additional page; its result is adopted only when
    nonempty and at least as confident as the first pass, and a strictly
    less confident second pass is discarded in favour of the first-pass
    label (or the untouched sentinel).  When no pass ever yields a nonempty
    period label, the original requested sentinel is returned unchanged. -/
theorem C6_period_detection_escalation (requested : String) (n : Nat)
    (invoke : Nat → FiscalPeriodDetection)
    (hauto : should_autodetect_period (some requested) = true) :
    ((invoke (min 2 n)).confidence < 7/10 → min 2 n < n →
      (min 3 n = min 2 n + 1)
      ∧ (stripString (invoke (min 3 n)).best_period ≠ "" →
          (invoke (min 3 n)).confidence ≥ (invoke (min 2 n)).confidence →
          detect_fiscal_period requested n invoke
            = (stripString (invoke (min 3 n)).best_period, some (invoke (min 3 n))))
      ∧ ((invoke (min 3 n)).confidence < (invoke (min 2 n)).confidence →
          detect_fiscal_period requested n invoke
            = (if stripString (invoke (min 2 n)).best_period = "" then requested
               else stripString (invoke (min 2 n)).best_period,
               some (invoke (min 2 n)))))
    ∧ (stripString (invoke (min 2 n)).best_period = "" →
        (min 2 n < n → stripString (invoke (min 3 n)).best_period = "") →
        (detect_fiscal_period requested n invoke).1 = requested) := by
  have hne : ¬((!should_autodetect_period (some requested)) = true) := by
    rw [hauto]; decide
  constructor
  · intro hconf hmore
    have hn0 : n ≠ 0 := by omega
    refine ⟨by omega, ?_, ?_⟩
    · intro hbest2 hge
      unfold detect_fiscal_period
      rw [if_neg hne, if_neg hn0]
      dsimp only
      rw [if_neg (fun hcond => absurd hcond.2 (not_le.mpr hconf)),
        if_pos hmore, if_pos (And.intro hbest2 hge)]
    · intro hlt
      unfold detect_fiscal_period
      rw [if_neg hne, if_neg hn0]
      dsimp only
      rw [if_neg (fun hcond => absurd hcond.2 (not_le.mpr hconf)),
        if_pos hmore, if_neg (fun hcond => absurd hcond.2 (not_le.mpr hlt))]
      by_cases hbe : stripString (invoke (min 2 n)).best_period = ""
      · rw [if_neg (fun hb => hb hbe), if_pos hbe]
      · rw [if_pos hbe, if_neg hbe]
  · intro hbest1 hb2
    by_cases hn0 : n = 0
    · subst hn0
      unfold detect_fiscal_period
      rw [if_neg hne, if_pos rfl]
    · unfold detect_fiscal_period
      rw [if_neg hne, if_neg hn0]
      dsimp only
      rw [if_neg (fun hcond => absurd hbest1 hcond.1)]
      by_cases hm : min 2 n < n
      · rw [if_pos hm, if_neg (fun hcond => absurd (hb2 hm) hcond.1),
          if_neg (fun hb => hb hbest1)]
      · rw [if_neg hm, if_neg (fun hb => hb hbest1)]

/-- C6 witness inputs: a low-confidence first pass and a more confident
    second pass. -/
def fpd1 : FiscalPeriodDetection :=
  { best_period := "2024", best_end_date := none, confidence := 1/2,
    candidates := [], notes := none }

def fpd2 : FiscalPeriodDetection :=
  { best_period := "FY24", best_end_date := some "2024-12-31", confidence := 3/5,
    candidates := [], notes := none }

def invC6 : Nat → FiscalPeriodDetection := fun k => if k = 2 then fpd1 else fpd2

theorem C6_period_detection_escalation_witness :
    detect_fiscal_period "Latest" 3 invC6 = ("FY24", some fpd2) := by
  have h := ((C6_period_detection_escalation "Latest" 3 invC6 (by decide)).1
      (by norm_num [invC6, fpd1]) (by norm_num)).2.1
    (by decide) (by norm_num [invC6, fpd1, fpd2])
  rw [h, show stripString (invC6 (min 3 3)).best_period = "FY24" from by decide,
    show invC6 (min 3 3) = fpd2 from rfl]

-- ==========================================================================
-- C8
-- ==========================================================================

/-- C8: when the column classifier returns an empty period_columns list, the
    multi-period pipeline fails with the hard error and the extraction call
    count is zero — extraction never proceeds without at least one period
    column. -/
theorem C8_zero_period_columns_hard_failure (raw : ColumnClassification)
    (extract : ColumnClassification → Except String MultiPeriodIncomeExtraction)
    (tol : ℚ) (hempty : raw.period_columns = []) :
    spread_pdf_multi_period_income raw extract tol
      = (Except.error ("No period columns detected after classification. "
          ++ "Cannot proceed with extraction. Check document format."), 0) := by
  unfold spread_pdf_multi_period_income classify_columns
  simp [hempty]

def exC8 : ColumnClassification :=
  { period_columns := [], rollup_columns := ["Total"],
    column_order := ["Total"], classification_notes := none }

theorem C8_zero_period_columns_witness :
    spread_pdf_multi_period_income exC8 (fun _ => Except.error "unused") (1/20)
      = (Except.error ("No period columns detected after classification. "
          ++ "Cannot proceed with extraction. Check document format."), 0) :=
  C8_zero_period_columns_hard_failure exC8 (fun _ => Except.error "unused")
    (1/20) rfl

-- ==========================================================================
-- C9
-- ==========================================================================

theorem startsWithChars_refl (l : List Char) : startsWithChars l l = true := by
  induction l with
  | nil => rfl
  | cons c cs ih => simp [startsWithChars, ih]

theorem containsChars_self (l : List Char) : containsChars l l = true :=
  containsChars_of_startsWith _ _ (startsWithChars_refl l)

theorem containsChars_nil_pat (s : List Char) : containsChars [] s = true := by
  cases s <;> simp [containsChars, startsWithChars]

theorem containsChars_append_of_left (pat a b : List Char)
    (h : containsChars pat a = true) : containsChars pat (a ++ b) = true := by
  induction a with
  | nil =>
    cases pat with
    | nil => exact containsChars_nil_pat b
    | cons p ps => simp [containsChars, startsWithChars] at h
  | cons c cs ih =>
    simp only [containsChars, Bool.or_eq_true] at h
    simp only [List.cons_append, containsChars, Bool.or_eq_true]
    rcases h with h | h
    · exact Or.inl (startsWithChars_append_left _ _ _ h)
    · exact Or.inr (ih h)

theorem containsChars_append_of_right (pat a b : List Char)
    (h : containsChars pat b = true) : containsChars pat (a ++ b) = true := by
  induction a with
  | nil => exact h
  | cons c cs ih =>
    simp only [List.cons_append, containsChars, Bool.or_eq_true]
    exact Or.inr ih

/-- A join contains any pattern contained in any of its members. -/
theorem containsChars_joinWith (sep : String) (l : List String) (e : String)
    (he : e ∈ l) (pat : List Char)
    (hc : containsChars pat e.toList = true) :
    containsChars pat (joinWith sep l).toList = true := by
  induction l with
  | nil => cases he
  | cons a as ih =>
    cases as with
    | nil =>
      rw [List.mem_singleton] at he
      subst he
      exact hc
    | cons b rest =>
      rcases List.mem_cons.mp he with he | he
      · subst he
        show containsChars pat ((e ++ sep ++ joinWith sep (b :: rest))).toList = true
        simp only [strToList_append, List.append_assoc]
        exact containsChars_append_of_left _ _ _ hc
      · show containsChars pat ((a ++ sep ++ joinWith sep (b :: rest))).toList = true
        simp only [strToList_append, List.append_assoc]
        refine containsChars_append_of_right _ _ _ ?_
        exact containsChars_append_of_right _ _ _ (ih he)

/-- The retry context contains the full JSON dump of the previous result and
    every individual validation error message. -/
theorem build_retry_context_contains (v : ValidationResult) (r : IncomeStatement) :
    strContainsSub (build_retry_context v r) (model_dump_json r) = true
    ∧ ∀ e ∈ v.errors, strContainsSub (build_retry_context v r) e = true := by
  constructor
  · unfold strContainsSub build_retry_context
    simp only [strToList_append, List.append_assoc]
    refine containsChars_append_of_right _ _ _ ?_
    refine containsChars_append_of_right _ _ _ ?_
    refine containsChars_append_of_right _ _ _ ?_
    refine containsChars_append_of_right _ _ _ ?_
    refine containsChars_append_of_right _ _ _ ?_
    exact containsChars_self _
  · intro e he
    unfold strContainsSub build_retry_context
    simp only [strToList_append, List.append_assoc]
    refine containsChars_append_of_right _ _ _ ?_
    refine containsChars_append_of_left _ _ _ ?_
    refine containsChars_joinWith "\n" _ ("  - " ++ e) (List.mem_map_of_mem _ he) _ ?_
    rw [strToList_append]
    exact containsChars_append_of_right _ _ _ (containsChars_self _)

/-- The retry context each attempt receives, under permanently failing
    validation: attempt 0 gets none, attempt i+1 gets the context built from
    attempt i. -/
def ctxChain (invoke : Nat → Option String → IncomeStatement) (tol : ℚ) :
    Nat → Option String
  | 0 => none
  | i + 1 =>
    some (build_retry_context
      (validate_income_statement (invoke i (ctxChain invoke tol i)) tol)
      (invoke i (ctxChain invoke tol i)))

/-- Characterization of the reasoning loop when every attempt fails
    validation: it runs all remaining attempts, threads the chained retry
    contexts, and returns the last attempt raw. -/
theorem reasoning_loop_all_fail (invoke : Nat → Option String → IncomeStatement)
    (tol : ℚ) (max_retries : Nat)
    (hfail : ∀ i ctx, (validate_income_statement (invoke i ctx) tol).is_valid = false) :
    ∀ k attempt, max_retries - attempt = k → attempt ≤ max_retries →
    reasoning_loop invoke tol max_retries attempt (ctxChain invoke tol attempt)
      = (invoke max_retries (ctxChain invoke tol max_retries),
         (List.range (max_retries + 1 - attempt)).map
           (fun j => ctxChain invoke tol (attempt + j))) := by
  intro k
  induction k with
  | zero =>
    intro attempt hk hle
    have heq : attempt = max_retries := by omega
    subst heq
    unfold reasoning_loop
    dsimp only
    rw [hfail, if_neg (by decide), dif_neg (by omega)]
    rw [show attempt + 1 - attempt = 1 from by omega,
      show List.range 1 = [0] from rfl]
    simp
  | succ k ih =>
    intro attempt hk hle
    have hlt : attempt < max_retries := by omega
    unfold reasoning_loop
    dsimp only
    rw [hfail, if_neg (by decide), dif_pos hlt]
    have harg : some (build_retry_context
        (validate_income_statement (invoke attempt (ctxChain invoke tol attempt)) tol)
        (invoke attempt (ctxChain invoke tol attempt)))
        = ctxChain invoke tol (attempt + 1) := rfl
    rw [harg, ih (attempt + 1) (by omega) (by omega)]
    rw [show max_retries + 1 - attempt = (max_retries - attempt) + 1 from by omega,
      show max_retries + 1 - (attempt + 1) = max_retries - attempt from by omega]
    rw [List.range_succ_eq_map, List.map_cons, List.map_map]
    refine congrArg _ (congrArg _ ?_)
    refine List.map_congr_left (fun j _ => ?_)
    show ctxChain invoke tol (attempt + 1 + j) = ctxChain invoke tol (attempt + (j + 1))
    rw [Nat.add_assoc, Nat.add_comm 1 j]

/-- C9: under permanently failing validation, spread_pdf (income path) runs
    max_retries + 1 attempts; the first attempt gets no retry context, every
    following attempt gets exactly the context built from the previous
    attempt's result and validation (that context contains the previous
    JSON dump and every specific error message), and the last attempt's
    extraction is still returned, post-processed — validation failures are
    logged, never raised. -/
theorem C9_reasoning_loop_best_effort (period : String) (max_retries : Nat)
    (tol : ℚ) (invoke : Nat → Option String → IncomeStatement)
    (hfail : ∀ i ctx, (validate_income_statement (invoke i ctx) tol).is_valid = false) :
    (spread_pdf_income period max_retries tol invoke).2.length = max_retries + 1
    ∧ (spread_pdf_income period max_retries tol invoke).2.get? 0 = some none
    ∧ (∀ i, i < max_retries →
        (spread_pdf_income period max_retries tol invoke).2.get? i
          = some (ctxChain invoke tol i)
        ∧ (spread_pdf_income period max_retries tol invoke).2.get? (i + 1)
          = some (some (build_retry_context
              (validate_income_statement (invoke i (ctxChain invoke tol i)) tol)
              (invoke i (ctxChain invoke tol i)))))
    ∧ (∀ v r, strContainsSub (build_retry_context v r) (model_dump_json r) = true
        ∧ ∀ e ∈ v.errors, strContainsSub (build_retry_context v r) e = true)
    ∧ (spread_pdf_income period max_retries tol invoke).1
        = post_process_income period tol
            (invoke max_retries (ctxChain invoke tol max_retries)) := by
  have hloop := reasoning_loop_all_fail invoke tol max_retries hfail
    (max_retries - 0) 0 rfl (Nat.zero_le _)
  have hmain : spread_pdf_income period max_retries tol invoke
      = (post_process_income period tol
           (invoke max_retries (ctxChain invoke tol max_retries)),
         (List.range (max_retries + 1)).map (fun j => ctxChain invoke tol (0 + j))) := by
    unfold spread_pdf_income
    dsimp only
    rw [show (none : Option String) = ctxChain invoke tol 0 from rfl, hloop]
    simp
  rw [hmain]
  refine ⟨?_, ?_, ?_, fun v r => build_retry_context_contains v r, rfl⟩
  · simp
  · rw [List.get?_map, List.get?_range (by omega : 0 < max_retries + 1)]
    rfl
  · intro i hi
    constructor
    · rw [List.get?_map, List.get?_range (by omega : i < max_retries + 1)]
      simp
    · rw [List.get?_map, List.get?_range (by omega : i + 1 < max_retries + 1)]
      simp only [Option.map_some', Nat.zero_add]
      rfl

/-- C9 witness input: an extraction whose gross profit is always
    inconsistent, so validation fails on every attempt. -/
def exC9 : IncomeStatement :=
  { IncomeStatement.empty with
    revenue := { value := some 1000, confidence := 9/10,
                 raw_fields_used := ["Revenue"], source_section_hint := none }
    cogs := { value := some 300, confidence := 9/10,
              raw_fields_used := ["COGS"], source_section_hint := none }
    gross_profit := { value := some 500, confidence := 8/10,
                      raw_fields_used := ["Gross Profit"],
                      source_section_hint := none } }

def invC9 : Nat → Option String → IncomeStatement := fun _ _ => exC9

theorem C9_reasoning_loop_best_effort_witness :
    (∀ i ctx, (validate_income_statement (invC9 i ctx) (1/20)).is_valid = false)
    ∧ (spread_pdf_income "Latest" 1 (1/20) invC9).2.length = 1 + 1
    ∧ (spread_pdf_income "Latest" 1 (1/20) invC9).1
        = post_process_income "Latest" (1/20) (invC9 1 (ctxChain invC9 (1/20) 1)) := by
  have hf : ∀ i ctx,
      (validate_income_statement (invC9 i ctx) (1/20)).is_valid = false := by
    intro i ctx
    norm_num [invC9, validate_income_statement, get_value_or_zero, exC9,
      IncomeStatement.empty, LineItem.mkDefault]
  have h := C9_reasoning_loop_best_effort "Latest" 1 (1/20) invC9 hf
  exact ⟨hf, h.1, h.2.2.2.2⟩

/-- C3 witness input: a populated, nonzero gross profit inconsistent with
    revenue minus cogs. -/
def exC3w : IncomeStatement :=
  { IncomeStatement.empty with
    revenue := { value := some 1000, confidence := 9/10,
                 raw_fields_used := ["Total Revenue"], source_section_hint := none }
    cogs := { value := some 300, confidence := 9/10,
              raw_fields_used := ["Cost of Goods Sold"], source_section_hint := none }
    gross_profit := { value := some 500, confidence := 8/10,
                      raw_fields_used := ["Gross Profit"],
                      source_section_hint := none } }

theorem C3_populated_gross_profit_untouched_witness :
    (apply_computed_totals exC3w (1/100)).1.gross_profit = exC3w.gross_profit
    ∧ ∀ c ∈ (apply_computed_totals exC3w (1/100)).2,
        strStartsWith "Computed gross_profit" c = false :=
  C3_populated_gross_profit_untouched exC3w (1/100) 500 rfl (by norm_num)
